import Mathlib

/-!
Verification model of the docker-acme certificate lifecycle engine (`app.py`).

The filesystem is modelled as a partial map from path strings to file
contents.  External subprocess calls (`openssl`, `acme_tiny.get_crt`,
`urlopen`, `docker kill`) are modelled as oracle functions collected in the
`Toolkit` / `Env` structures: each oracle returns `Except String` mirroring
the Python code's `raise IOError` / `raise ValueError` on a failing call.
Everything the engine itself computes (path formatting, SAN-list filtering
and sorting, comparison logic, the backup/replace discipline, the
per-certificate error boundary of the main loop, configuration merging and
the notification fan-out) is translated directly from the source.
-/

/-- Filesystem model: a path maps to the content of the file stored there,
`none` when no file exists at that path. -/
abbrev FS : Type := String → Option String

/-- Overwriting file write, as in Python `open(p, "w")` followed by `write`. -/
def FS.write (fs : FS) (p c : String) : FS := fun q => if q = p then some c else fs q

/-- Model of `os.path.isfile`. -/
def FS.isfile (fs : FS) (p : String) : Bool := (fs p).isSome

/-- Content of the file at `p`; every call site first checks existence, so
the `""` default is never observed. -/
def FS.readD (fs : FS) (p : String) : String := (fs p).getD ""

/-- Model of `shutil.copyfile src dst` (call sites guard that `src` exists). -/
def FS.copyfile (fs : FS) (src dst : String) : FS := fs.write dst (fs.readD src)

/-- Removal of the file at `p` (used only to state key-independence facts;
the engine itself never deletes files). -/
def FS.eraseF (fs : FS) (p : String) : FS := fun q => if q = p then none else fs q

/-- Directory constants from the top of `app.py`. -/
def crt_dir : String := "crt/"

def crt_bak_dir : String := "crt/backup/"

def tmp_dir : String := "/tmp/"

/-- Path `"%s/%s.key" % (crt_dir, name)`. -/
def keyPath (name : String) : String := crt_dir ++ "/" ++ name ++ ".key"

/-- Path `"%s/%s.csr" % (crt_dir, name)`. -/
def csrPath (name : String) : String := crt_dir ++ "/" ++ name ++ ".csr"

/-- Path `"%s/%s.crt" % (crt_dir, name)`. -/
def crtPath (name : String) : String := crt_dir ++ "/" ++ name ++ ".crt"

/-- Path `"%s/%s_%s.key" % (crt_bak_dir, timestamp, name)`. -/
def bakKeyPath (ts name : String) : String := crt_bak_dir ++ "/" ++ ts ++ "_" ++ name ++ ".key"

/-- Path `"%s/%s_%s.crt" % (crt_bak_dir, timestamp, name)`. -/
def bakCrtPath (ts name : String) : String := crt_bak_dir ++ "/" ++ ts ++ "_" ++ name ++ ".crt"

/-- Path `tmp_dir + "openssl.cnf"`, the scratch OpenSSL config of `create_csr`. -/
def sslConfPath : String := tmp_dir ++ "openssl.cnf"

/-- Lexicographic comparison on code points, as Python string `<=`. -/
def leChars : List Char → List Char → Bool
  | [], _ => true
  | _ :: _, [] => false
  | x :: xs, y :: ys => if x = y then leChars xs ys else decide (x < y)

/-- Python string `<=`. -/
def leStr (s t : String) : Bool := leChars s.data t.data

/-- Insertion step of an ascending sort. -/
def insertSorted (x : String) : List String → List String
  | [] => [x]
  | y :: ys => if leStr x y then x :: y :: ys else y :: insertSorted x ys

/-- Python `sorted` on a list of strings (ascending, lexicographic). -/
def sortStr (l : List String) : List String := l.foldr insertSorted []

/-- Accumulator-style splitting of a character list at a separator. -/
def splitCharAux (c : Char) : List Char → List Char → List (List Char)
  | [], acc => [acc.reverse]
  | x :: xs, acc =>
    if x = c then acc.reverse :: splitCharAux c xs []
    else splitCharAux c xs (x :: acc)

/-- Python `s.split(c)` for a one-character separator. -/
def splitChar (c : Char) (s : String) : List String :=
  (splitCharAux c s.data []).map String.mk

/-- Python `s.startswith(p)`. -/
def startsWithStr (p s : String) : Bool := p.data.isPrefixOf s.data

/-- Python `s.lower()` (ASCII case folding suffices for the keys involved). -/
def toLowerStr (s : String) : String := String.mk (s.data.map Char.toLower)

/-- Python `s[k:]`. -/
def dropStr (k : Nat) (s : String) : String := String.mk (s.data.drop k)

/-- Python `sep.join l`. -/
def intercalateStr (sep : String) : List String → String
  | [] => ""
  | [x] => x
  | x :: y :: xs => x ++ sep ++ intercalateStr sep (y :: xs)

/-- Python `s.strip(',')`. -/
def stripCommas (s : String) : String :=
  String.mk (((s.data.dropWhile (· == ',')).reverse.dropWhile (· == ',')).reverse)

/-- Last-occurrence deduplication; composed with `sortStr` it realises
Python's `sorted(set(...))`. -/
def dedupStr : List String → List String
  | [] => []
  | x :: xs => if x ∈ xs then dedupStr xs else x :: dedupStr xs

/-- Model of `sorted(filter(len, set(value.split(","))))` from the configuration
aggregation code. -/
def normalizeDomains (value : String) : List String :=
  sortStr ((dedupStr (splitChar ',' value)).filter (fun s => !(s == "")))

/-- Certificate toolkit boundary (spec section 1 excludes X.509 introspection as
an opaque capability).  `csrSanParts c` abstracts running
`openssl req -noout -text` on a CSR whose file content is `c`, applying the
`X509v3 Subject Alternative Name` regular expression of `check_crt` and
splitting the matched group on `", "`; it returns the raw SAN parts (strings
such as `"DNS:a.com"`), or the captured `stderr` when `openssl` exits
non-zero.  `crtSanParts` is the same introspection for a certificate's
content (available via `openssl x509 -text`; `check_crt` never invokes it).
`crtStart c` abstracts `openssl x509 -noout -startdate` plus
`datetime.strptime`, returning the issuance start instant of the certificate
whose content is `c`, in seconds. -/
structure Toolkit where
  csrSanParts : String → Except String (List String)
  crtSanParts : String → Except String (List String)
  crtStart : String → Except String Int

/-- Model of `[part.split(":")[1] for part in sans_parts if part.startswith("DNS:")]`. -/
def dnsNames (parts : List String) : List String :=
  (parts.filter (fun p => startsWithStr "DNS:" p)).map
    (fun p => (splitChar ':' p).getD 1 "")

/-- Environment of one pass of the engine: the toolkit, the clock, the
configured maximum certificate age (`int(crt_max_age)`), the
`datetime.now().strftime("%Y%m%d_%H%M%S")` timestamp used in backup names,
and the remaining external oracles.  `gen name` is the `openssl genrsa 4096`
output produced when generating the key of certificate `name` (the
randomness of one pass, determinised per name); `mkCsr key domains` is the
`openssl req -new -sha256` output for that key content and SAN list;
`sign csr` is `acme_tiny.get_crt` on a CSR of content `csr`;
`intermediate` is `urlopen(acme_intermediate).read().decode("utf8")`;
`chained_crt` is the `CHAINED_CRT` environment value captured once at
process start (module scope in `app.py`). -/
structure Env where
  tk : Toolkit
  now : Int
  maxAge : Int
  ts : String
  gen : String → Except String String
  mkCsr : String → List String → Except String String
  sign : String → Except String String
  intermediate : String
  chained_crt : String

/-- Model of `check_crt(name, domains)` from `app.py`.  Returns `.error` where the
Python raises `IOError` (a failing `openssl` call), `.ok b` where it returns
the boolean `b`. -/
def check_crt (tk : Toolkit) (now maxAge : Int) (fs : FS) (name : String)
    (domains : List String) : Except String Bool :=
  let crt_file := crtPath name
  let csr_file := csrPath name
  if !(fs.isfile crt_file) || !(fs.isfile csr_file) then .ok false
  else
    match tk.csrSanParts (fs.readD csr_file) with
    | .error e => .error ("OpenSSL Error: " ++ e)
    | .ok sans_parts =>
      let csr_domains := sortStr (dnsNames sans_parts)
      if csr_domains ≠ domains then .ok false
      else
        match tk.crtStart (fs.readD crt_file) with
        | .error e => .error ("OpenSSL Error: " ++ e)
        | .ok start_time => .ok (decide ((now - start_time).fdiv 86400 < maxAge))

/-- Model of `exist_key(name)`. -/
def exist_key (fs : FS) (name : String) : Bool := fs.isfile (keyPath name)

/-- Model of `exist_crt(name)`. -/
def exist_crt (fs : FS) (name : String) : Bool := fs.isfile (crtPath name)

/-- Model of `create_key(name)`: back up an existing key, then generate and install a
fresh one.  Returns the filesystem as left behind together with the outcome
(`.error` where the Python raises `IOError`). -/
def create_key (env : Env) (fs : FS) (name : String) : FS × Except String Unit :=
  let fs1 := if exist_key fs name
    then fs.copyfile (keyPath name) (bakKeyPath env.ts name)
    else fs
  match env.gen name with
  | .error e => (fs1, .error ("OpenSSL Error: " ++ e))
  | .ok out => (fs1.write (keyPath name) out, .ok ())

/-- Model of `create_csr(name, domains)`: write the scratch OpenSSL config (the system
config with an appended `[SAN]` section), run `openssl req`, install the CSR. -/
def create_csr (env : Env) (fs : FS) (name : String) (domains : List String) :
    FS × Except String Unit :=
  let conf := fs.readD "/etc/ssl/openssl.cnf" ++ "\n[SAN]\n" ++
    ("subjectAltName=DNS:" ++ intercalateStr ",DNS:" domains)
  let fs1 := fs.write sslConfPath conf
  match env.mkCsr (fs1.readD (keyPath name)) domains with
  | .error e => (fs1, .error ("OpenSSL Error: " ++ e))
  | .ok out => (fs1.write (csrPath name) out, .ok ())

/-- Model of `create_crt(name)`: back up an existing certificate, call the CA client
on the CSR, optionally append the fetched intermediate (exactly when the
captured `CHAINED_CRT` value equals `"true"`), install the result. -/
def create_crt (env : Env) (fs : FS) (name : String) : FS × Except String Unit :=
  let fs1 := if exist_crt fs name
    then fs.copyfile (crtPath name) (bakCrtPath env.ts name)
    else fs
  match env.sign (fs1.readD (csrPath name)) with
  | .error e => (fs1, .error e)
  | .ok signed_crt =>
    let full := if env.chained_crt = "true" then signed_crt ++ env.intermediate
      else signed_crt
    (fs1.write (crtPath name) full, .ok ())

/-- The body of the per-certificate `try` block of the main loop, together
with its `except ValueError / except IOError` boundary: a failing step is
logged and leaves `changed` untouched, a certificate evaluated as valid is
skipped, a key is generated only when none exists, and `changed` becomes
`true` exactly when `create_crt` succeeds. -/
def process_cert (env : Env) (fs : FS) (changed : Bool) (name : String)
    (domains : List String) : FS × Bool :=
  match check_crt env.tk env.now env.maxAge fs name domains with
  | .error _ => (fs, changed)
  | .ok true => (fs, changed)
  | .ok false =>
    let r1 := if exist_key fs name then (fs, Except.ok ()) else create_key env fs name
    match r1.2 with
    | .error _ => (r1.1, changed)
    | .ok _ =>
      let r2 := create_csr env r1.1 name domains
      match r2.2 with
      | .error _ => (r2.1, changed)
      | .ok _ =>
        let r3 := create_crt env r2.1 name
        match r3.2 with
        | .error _ => (r3.1, changed)
        | .ok _ => (r3.1, true)

/-- The `for crt, domains in certs.items()` loop of one pass, threading the
filesystem and the `changed` flag. -/
def renew_pass (env : Env) (certs : List (String × List String)) (fs : FS) :
    FS × Bool :=
  certs.foldl (fun acc c => process_cert env acc.1 acc.2 c.1 c.2) (fs, false)

/-- Model of `notify_container(container_list)`: the list of container identifiers
that receive a `SIGHUP`, in order.  `none` models `CONTAINER_NOTIFY` being
unset; per-target `docker` failures are logged, never raised. -/
def notify_container (container_list : Option String) : List String :=
  match container_list with
  | none => []
  | some s => if s = "" then [] else splitChar ',' (stripCommas s)

/-- The `if changed:` notification block at the end of a pass: the global
default targets once, then the targets of every entry of `notifies`. -/
def notify_phase (changed : Bool) (container_notify : Option String)
    (notifies : List (String × String)) : List String :=
  if changed then
    notify_container container_notify ++
      (notifies.map (fun p => notify_container (some p.2))).flatten
  else []

/-- One full pass over the configured certificates followed by the
notification block; the third component is the ordered list of notified
container identifiers. -/
def run_pass (env : Env) (certs : List (String × List String))
    (notifies : List (String × String)) (container_notify : Option String)
    (fs : FS) : FS × Bool × List String :=
  let r := renew_pass env certs fs
  (r.1, r.2, notify_phase r.2 container_notify notifies)

/-- Python `dict` assignment `m[k] = v` on an insertion-ordered mapping. -/
def upsert {α : Type} : List (String × α) → String → α → List (String × α)
  | [], k, v => [(k, v)]
  | (k2, v2) :: rest, k, v =>
    if k2 = k then (k, v) :: rest else (k2, v2) :: upsert rest k v

/-- Mapping lookup. -/
def lookupA {α : Type} : List (String × α) → String → Option α
  | [], _ => none
  | (k2, v) :: rest, k => if k2 = k then some v else lookupA rest k

/-- The environment-variable sweep of the main loop: every key is lowered;
keys starting with `cert_` contribute `certs[key[5:]] = sorted(filter(len,
set(value.split(","))))`. -/
def env_certs (envvars : List (String × String)) : List (String × List String) :=
  envvars.foldl
    (fun certs kv =>
      let key := toLowerStr kv.1
      if startsWithStr "cert_" key then
        upsert certs (dropStr 5 key) (normalizeDomains kv.2)
      else certs)
    []

/-- One `[name]` section of `crt_domains.ini`; a `none` field models a
missing key, whose lookup raises `KeyError` inside the `try` block. -/
structure IniSection where
  sname : String
  sdomains : Option String
  snotify : Option String
deriving DecidableEq

/-- The `for crt in config.sections()` loop.  A missing `domains` key aborts
the loop before touching the current section; a missing `notify` key aborts
it after the `certs` assignment (mirroring the statement order inside the
blanket `except Exception: pass`). -/
def apply_sections : List IniSection → List (String × List String) →
    List (String × String) → List (String × List String) × List (String × String)
  | [], certs, notifies => (certs, notifies)
  | s :: rest, certs, notifies =>
    match s.sdomains with
    | none => (certs, notifies)
    | some d =>
      let certs2 := upsert certs s.sname (normalizeDomains d)
      match s.snotify with
      | none => (certs2, notifies)
      | some t => apply_sections rest certs2 (upsert notifies s.sname t)

/-- Configuration aggregation of one pass: environment-derived definitions,
then the INI file.  `fileConfig = none` models `configparser` itself raising
while reading the file (swallowed, leaving environment-only definitions and
an empty notify mapping). -/
def aggregate (envvars : List (String × String))
    (fileConfig : Option (List IniSection)) :
    List (String × List String) × List (String × String) :=
  let certs := env_certs envvars
  match fileConfig with
  | none => (certs, [])
  | some secs => apply_sections secs certs []

/-- Reads of the three primary artifact paths of certificate `n`. -/
def certFiles (n : String) (fs : FS) : Option String × Option String × Option String :=
  (fs (keyPath n), fs (csrPath n), fs (crtPath n))

/-- Toolkit for the `check_crt` introspection scenarios: the CSR on disk
carries SANs `{a.com, b.com, c.com}` while the certificate itself carries
SANs `{a.com, b.com}`. -/
def tkC1 : Toolkit where
  csrSanParts := fun c =>
    if c = "CSR1" then .ok ["DNS:a.com", "DNS:b.com", "DNS:c.com"] else .ok []
  crtSanParts := fun c =>
    if c = "CRT1" then .ok ["DNS:a.com", "DNS:b.com"] else .ok []
  crtStart := fun _ => .ok 0

/-- Key, CSR and certificate all present for `site`, the latter two with the
contents read by `tkC1`. -/
def fsC1 : FS := fun p =>
  if p = crtPath "site" then some "CRT1"
  else if p = csrPath "site" then some "CSR1"
  else if p = keyPath "site" then some "KEY1"
  else none

/-- Toolkit for the key-presence scenario: CSR SANs match the configured
domain, certificate fresh. -/
def tkC2 : Toolkit where
  csrSanParts := fun c => if c = "CSR2" then .ok ["DNS:a.com"] else .ok []
  crtSanParts := fun _ => .ok []
  crtStart := fun _ => .ok 0

/-- Certificate and CSR present for `web`; no private key anywhere. -/
def fsC2 : FS := fun p =>
  if p = crtPath "web" then some "CRT2"
  else if p = csrPath "web" then some "CSR2"
  else none

/-- Environment whose key generation succeeds, for exercising the backup
discipline of `create_key`. -/
def envC3 : Env where
  tk := { csrSanParts := fun _ => .ok []
          crtSanParts := fun _ => .ok []
          crtStart := fun _ => .ok 0 }
  now := 0
  maxAge := 30
  ts := "20240101_120000"
  gen := fun _ => .ok "FRESHKEY3"
  mkCsr := fun _ _ => .ok "CSR3"
  sign := fun _ => .ok "CRT3"
  intermediate := "IM3"
  chained_crt := "true"

/-- A private key already on disk for `site`. -/
def fsC3 : FS := fun p => if p = keyPath "site" then some "OLDKEY3" else none

/-- Environment whose CA exchange fails. -/
def envC4 : Env where
  tk := { csrSanParts := fun _ => .ok []
          crtSanParts := fun _ => .ok []
          crtStart := fun _ => .ok 0 }
  now := 0
  maxAge := 30
  ts := "20240101_120000"
  gen := fun _ => .ok "K4"
  mkCsr := fun _ _ => .ok "CSR4"
  sign := fun _ => .error "ACME exchange failed"
  intermediate := "IM4"
  chained_crt := "true"

/-- A currently-serving certificate and its CSR for `site`. -/
def fsC4 : FS := fun p =>
  if p = crtPath "site" then some "OLDCRT4"
  else if p = csrPath "site" then some "CSR4"
  else none

/-- Toolkit for the key-reuse scenario: SANs match, certificate issued at
instant `0`. -/
def tkC5 : Toolkit where
  csrSanParts := fun c => if c = "CSR5" then .ok ["DNS:a.com"] else .ok []
  crtSanParts := fun _ => .ok []
  crtStart := fun _ => .ok 0

/-- Environment 100 days after issuance (certificate expired, forcing a
reissue); `gen` would fail if it were ever invoked. -/
def envC5 : Env where
  tk := tkC5
  now := 100 * 86400
  maxAge := 30
  ts := "20240101_120000"
  gen := fun _ => .error "never invoked"
  mkCsr := fun k _ => .ok ("CSRfrom:" ++ k)
  sign := fun c => .ok ("CRTfrom:" ++ c)
  intermediate := "IM5"
  chained_crt := "no"

/-- Complete material for `site`: key, CSR and (expired) certificate. -/
def fsC5 : FS := fun p =>
  if p = keyPath "site" then some "OLDKEY5"
  else if p = csrPath "site" then some "CSR5"
  else if p = crtPath "site" then some "CRT5"
  else none

/-- Environment in which certificate `a`'s pipeline succeeds end to end while
every other certificate's CA exchange fails. -/
def envC6 : Env where
  tk := { csrSanParts := fun _ => .ok []
          crtSanParts := fun _ => .ok []
          crtStart := fun _ => .ok 0 }
  now := 0
  maxAge := 30
  ts := "20240101_120000"
  gen := fun n => .ok ("KEYfor:" ++ n)
  mkCsr := fun k _ => .ok ("CSRfrom:" ++ k)
  sign := fun c => if c = "CSRfrom:KEYfor:a" then .ok "ACRT" else .error "CA exchange failed"
  intermediate := "IM6"
  chained_crt := "false"

/-- Empty filesystem: both certificates start from nothing. -/
def fsC6 : FS := fun _ => none

/-- Toolkit for the notification scenario: `b`'s CSR matches its configured
domain and its certificate is fresh, so `b` is skipped as valid. -/
def tkC7 : Toolkit where
  csrSanParts := fun c => if c = "BCSR" then .ok ["DNS:b.com"] else .ok []
  crtSanParts := fun _ => .ok []
  crtStart := fun _ => .ok 0

/-- Environment in which every pipeline step succeeds. -/
def envC7 : Env where
  tk := tkC7
  now := 0
  maxAge := 30
  ts := "20240101_120000"
  gen := fun n => .ok ("KEYfor:" ++ n)
  mkCsr := fun k _ => .ok ("CSRfrom:" ++ k)
  sign := fun c => .ok ("CRTfrom:" ++ c)
  intermediate := "IM7"
  chained_crt := "nope"

/-- Valid material for `b` only; `a` has nothing and will be (re)issued. -/
def fsC7 : FS := fun p =>
  if p = crtPath "b" then some "BCRT"
  else if p = csrPath "b" then some "BCSR"
  else none

/-- Toolkit for the age-boundary scenario: matching SANs, issuance at
instant `0`. -/
def tkC8 : Toolkit where
  csrSanParts := fun c => if c = "CSR8" then .ok ["DNS:a.com"] else .ok []
  crtSanParts := fun _ => .ok []
  crtStart := fun c => if c = "CRT8" then .ok 0 else .error "unreadable"

/-- Certificate and CSR present for `site`. -/
def fsC8 : FS := fun p =>
  if p = crtPath "site" then some "CRT8"
  else if p = csrPath "site" then some "CSR8"
  else none

/-- An environment-derived definition for certificate `wild`. -/
def envvarsC9 : List (String × String) := [("CERT_wild", "a.com,b.com")]

/-- A file-derived section for the same certificate name, with duplicate and
empty domain entries to exercise normalization. -/
def secsC9 : List IniSection :=
  [⟨"wild", some "c.com,b.com,,c.com", some "proxy1,proxy2"⟩]

/-- Environment with `CHAINED_CRT` captured as `"True"` (capitalised, hence
not equal to the exact string `"true"`). -/
def envC10 : Env where
  tk := { csrSanParts := fun _ => .ok []
          crtSanParts := fun _ => .ok []
          crtStart := fun _ => .ok 0 }
  now := 0
  maxAge := 30
  ts := "20240101_120000"
  gen := fun _ => .ok "K10"
  mkCsr := fun _ _ => .ok "CSR10"
  sign := fun c => if c = "CSR10" then .ok "SIGNED10" else .error "no csr"
  intermediate := "IM10"
  chained_crt := "True"

/-- A CSR on disk for `site`; no prior certificate. -/
def fsC10 : FS := fun p => if p = csrPath "site" then some "CSR10" else none

/-- Whether one run of the per-certificate pipeline body actually reissued
the certificate (the contribution of this certificate to the `changed`
flag). -/
def cert_success (env : Env) (fs : FS) (name : String) (domains : List String) : Bool :=
  (process_cert env fs false name domains).2

/-- Two filesystems agree on the three primary artifact paths of `n`. -/
def agree3 (n : String) (fs fs' : FS) : Prop :=
  fs (keyPath n) = fs' (keyPath n) ∧ fs (csrPath n) = fs' (csrPath n) ∧
    fs (crtPath n) = fs' (crtPath n)
theorem strData_append (s t : String) : (s ++ t).data = s.data ++ t.data := by
  cases s; cases t; rfl

theorem strData_inj {s t : String} (h : s.data = t.data) : s = t := congrArg String.mk h

theorem keyPath_data (n : String) :
    (keyPath n).data = 'c' :: 'r' :: 't' :: '/' :: '/' :: (n.data ++ ['.', 'k', 'e', 'y']) := by
  have h1 : (crt_dir ++ "/").data = ['c', 'r', 't', '/', '/'] := by decide
  show (((crt_dir ++ "/") ++ n) ++ ".key").data = _
  rw [strData_append, strData_append, h1]
  have h2 : ".key".data = ['.', 'k', 'e', 'y'] := by decide
  rw [h2]
  simp

theorem csrPath_data (n : String) :
    (csrPath n).data = 'c' :: 'r' :: 't' :: '/' :: '/' :: (n.data ++ ['.', 'c', 's', 'r']) := by
  have h1 : (crt_dir ++ "/").data = ['c', 'r', 't', '/', '/'] := by decide
  show (((crt_dir ++ "/") ++ n) ++ ".csr").data = _
  rw [strData_append, strData_append, h1]
  have h2 : ".csr".data = ['.', 'c', 's', 'r'] := by decide
  rw [h2]
  simp

theorem crtPath_data (n : String) :
    (crtPath n).data = 'c' :: 'r' :: 't' :: '/' :: '/' :: (n.data ++ ['.', 'c', 'r', 't']) := by
  have h1 : (crt_dir ++ "/").data = ['c', 'r', 't', '/', '/'] := by decide
  show (((crt_dir ++ "/") ++ n) ++ ".crt").data = _
  rw [strData_append, strData_append, h1]
  have h2 : ".crt".data = ['.', 'c', 'r', 't'] := by decide
  rw [h2]
  simp

theorem bakKeyPath_data (ts n : String) :
    (bakKeyPath ts n).data = 'c' :: 'r' :: 't' :: '/' :: 'b' ::
      ('a' :: 'c' :: 'k' :: 'u' :: 'p' :: '/' :: '/' ::
        (ts.data ++ '_' :: (n.data ++ ['.', 'k', 'e', 'y']))) := by
  have h1 : (crt_bak_dir ++ "/").data =
      ['c', 'r', 't', '/', 'b', 'a', 'c', 'k', 'u', 'p', '/', '/'] := by decide
  show (((((crt_bak_dir ++ "/") ++ ts) ++ "_") ++ n) ++ ".key").data = _
  rw [strData_append, strData_append, strData_append, strData_append, h1]
  have h2 : ".key".data = ['.', 'k', 'e', 'y'] := by decide
  have h3 : "_".data = ['_'] := by decide
  rw [h2, h3]
  simp

theorem bakCrtPath_data (ts n : String) :
    (bakCrtPath ts n).data = 'c' :: 'r' :: 't' :: '/' :: 'b' ::
      ('a' :: 'c' :: 'k' :: 'u' :: 'p' :: '/' :: '/' ::
        (ts.data ++ '_' :: (n.data ++ ['.', 'c', 'r', 't']))) := by
  have h1 : (crt_bak_dir ++ "/").data =
      ['c', 'r', 't', '/', 'b', 'a', 'c', 'k', 'u', 'p', '/', '/'] := by decide
  show (((((crt_bak_dir ++ "/") ++ ts) ++ "_") ++ n) ++ ".crt").data = _
  rw [strData_append, strData_append, strData_append, strData_append, h1]
  have h2 : ".crt".data = ['.', 'c', 'r', 't'] := by decide
  have h3 : "_".data = ['_'] := by decide
  rw [h2, h3]
  simp

theorem slash5_ne_b5 {x y : List Char}
    (h : 'c' :: 'r' :: 't' :: '/' :: '/' :: x = 'c' :: 'r' :: 't' :: '/' :: 'b' :: y) :
    False := by
  have h3 : (some '/' : Option Char) = some 'b' := congrArg (fun l => l.get? 4) h
  exact absurd (Option.some.inj h3) (by decide)

theorem suffix4_eq {x y : List Char} {s t : List Char}
    (hs : s.length = 4) (ht : t.length = 4)
    (h : 'c' :: 'r' :: 't' :: '/' :: '/' :: (x ++ s) = 'c' :: 'r' :: 't' :: '/' :: '/' :: (y ++ t)) :
    x = y ∧ s = t := by
  have h2 : x ++ s = y ++ t := congrArg (List.drop 5) h
  exact List.append_inj' h2 (by rw [hs, ht])

theorem keyPath_ne_csrPath (n m : String) : keyPath n ≠ csrPath m := by
  intro h
  have h2 := congrArg String.data h
  rw [keyPath_data, csrPath_data] at h2
  have h4 := (suffix4_eq (by decide) (by decide) h2).2
  exact absurd h4 (by decide)

theorem keyPath_ne_crtPath (n m : String) : keyPath n ≠ crtPath m := by
  intro h
  have h2 := congrArg String.data h
  rw [keyPath_data, crtPath_data] at h2
  have h4 := (suffix4_eq (by decide) (by decide) h2).2
  exact absurd h4 (by decide)

theorem csrPath_ne_crtPath (n m : String) : csrPath n ≠ crtPath m := by
  intro h
  have h2 := congrArg String.data h
  rw [csrPath_data, crtPath_data] at h2
  have h4 := (suffix4_eq (by decide) (by decide) h2).2
  exact absurd h4 (by decide)

theorem keyPath_inj {n m : String} (h : keyPath n = keyPath m) : n = m := by
  have h2 := congrArg String.data h
  rw [keyPath_data, keyPath_data] at h2
  exact strData_inj (suffix4_eq (by decide) (by decide) h2).1

theorem csrPath_inj {n m : String} (h : csrPath n = csrPath m) : n = m := by
  have h2 := congrArg String.data h
  rw [csrPath_data, csrPath_data] at h2
  exact strData_inj (suffix4_eq (by decide) (by decide) h2).1

theorem crtPath_inj {n m : String} (h : crtPath n = crtPath m) : n = m := by
  have h2 := congrArg String.data h
  rw [crtPath_data, crtPath_data] at h2
  exact strData_inj (suffix4_eq (by decide) (by decide) h2).1

theorem keyPath_ne_bakKeyPath (n ts m : String) : keyPath n ≠ bakKeyPath ts m := by
  intro h
  have h2 := congrArg String.data h
  rw [keyPath_data, bakKeyPath_data] at h2
  exact slash5_ne_b5 h2

theorem keyPath_ne_bakCrtPath (n ts m : String) : keyPath n ≠ bakCrtPath ts m := by
  intro h
  have h2 := congrArg String.data h
  rw [keyPath_data, bakCrtPath_data] at h2
  exact slash5_ne_b5 h2

theorem csrPath_ne_bakKeyPath (n ts m : String) : csrPath n ≠ bakKeyPath ts m := by
  intro h
  have h2 := congrArg String.data h
  rw [csrPath_data, bakKeyPath_data] at h2
  exact slash5_ne_b5 h2

theorem csrPath_ne_bakCrtPath (n ts m : String) : csrPath n ≠ bakCrtPath ts m := by
  intro h
  have h2 := congrArg String.data h
  rw [csrPath_data, bakCrtPath_data] at h2
  exact slash5_ne_b5 h2

theorem crtPath_ne_bakKeyPath (n ts m : String) : crtPath n ≠ bakKeyPath ts m := by
  intro h
  have h2 := congrArg String.data h
  rw [crtPath_data, bakKeyPath_data] at h2
  exact slash5_ne_b5 h2

theorem crtPath_ne_bakCrtPath (n ts m : String) : crtPath n ≠ bakCrtPath ts m := by
  intro h
  have h2 := congrArg String.data h
  rw [crtPath_data, bakCrtPath_data] at h2
  exact slash5_ne_b5 h2

theorem sslConf_data : sslConfPath.data =
    ['/', 't', 'm', 'p', '/', 'o', 'p', 'e', 'n', 's', 's', 'l', '.', 'c', 'n', 'f'] := by decide

theorem keyPath_ne_sslConf (n : String) : keyPath n ≠ sslConfPath := by
  intro h
  have h2 := congrArg String.data h
  rw [keyPath_data, sslConf_data] at h2
  have h3 : (some 'c' : Option Char) = some '/' := congrArg (fun l => l.get? 0) h2
  exact absurd (Option.some.inj h3) (by decide)

theorem csrPath_ne_sslConf (n : String) : csrPath n ≠ sslConfPath := by
  intro h
  have h2 := congrArg String.data h
  rw [csrPath_data, sslConf_data] at h2
  have h3 : (some 'c' : Option Char) = some '/' := congrArg (fun l => l.get? 0) h2
  exact absurd (Option.some.inj h3) (by decide)

theorem crtPath_ne_sslConf (n : String) : crtPath n ≠ sslConfPath := by
  intro h
  have h2 := congrArg String.data h
  rw [crtPath_data, sslConf_data] at h2
  have h3 : (some 'c' : Option Char) = some '/' := congrArg (fun l => l.get? 0) h2
  exact absurd (Option.some.inj h3) (by decide)

theorem write_self (fs : FS) (p c : String) : fs.write p c p = some c := by
  simp [FS.write]

theorem write_other (fs : FS) {p q : String} (c : String) (h : q ≠ p) :
    fs.write p c q = fs q := by
  simp [FS.write, h]

theorem write_isSome (fs : FS) (p c q : String) (h : (fs q).isSome = true) :
    ((fs.write p c) q).isSome = true := by
  by_cases hq : q = p <;> simp [FS.write, hq, h]

theorem create_key_frame (env : Env) (fs : FS) (n : String) {p : String}
    (h1 : p ≠ keyPath n) (h2 : p ≠ bakKeyPath env.ts n) :
    (create_key env fs n).1 p = fs p := by
  unfold create_key
  cases hg : env.gen n <;>
    by_cases hk : exist_key fs n <;>
      simp [hg, hk, FS.copyfile, FS.write, h1, h2]

theorem create_csr_frame (env : Env) (fs : FS) (n : String) (d : List String) {p : String}
    (h1 : p ≠ sslConfPath) (h2 : p ≠ csrPath n) :
    (create_csr env fs n d).1 p = fs p := by
  unfold create_csr
  cases hg : env.mkCsr ((fs.write sslConfPath
      (fs.readD "/etc/ssl/openssl.cnf" ++ "\n[SAN]\n" ++
        ("subjectAltName=DNS:" ++ intercalateStr ",DNS:" d))).readD (keyPath n)) d <;>
    simp [hg, FS.write, h1, h2]

theorem create_crt_frame (env : Env) (fs : FS) (n : String) {p : String}
    (h1 : p ≠ bakCrtPath env.ts n) (h2 : p ≠ crtPath n) :
    (create_crt env fs n).1 p = fs p := by
  unfold create_crt
  by_cases hc : exist_crt fs n
  · rw [if_pos hc]
    cases hg : env.sign ((fs.write (bakCrtPath env.ts n) (fs.readD (crtPath n))).readD (csrPath n)) <;>
      simp [hg, FS.copyfile, FS.write, h1, h2]
  · rw [if_neg hc]
    cases hg : env.sign (fs.readD (csrPath n)) <;> simp [hg, FS.write, h1, h2]

theorem create_key_isSome (env : Env) (fs : FS) (n : String) {p : String}
    (h : (fs p).isSome = true) : ((create_key env fs n).1 p).isSome = true := by
  unfold create_key
  cases hg : env.gen n <;> by_cases hk : exist_key fs n <;>
    simp [hg, hk, FS.copyfile, FS.write] <;> (try split_ifs) <;> simp [h]

theorem create_csr_isSome (env : Env) (fs : FS) (n : String) (d : List String) {p : String}
    (h : (fs p).isSome = true) : ((create_csr env fs n d).1 p).isSome = true := by
  unfold create_csr
  cases hg : env.mkCsr ((fs.write sslConfPath
      (fs.readD "/etc/ssl/openssl.cnf" ++ "\n[SAN]\n" ++
        ("subjectAltName=DNS:" ++ intercalateStr ",DNS:" d))).readD (keyPath n)) d <;>
    simp [hg, FS.write] <;> (try split_ifs) <;> simp [h]

theorem create_crt_isSome (env : Env) (fs : FS) (n : String) {p : String}
    (h : (fs p).isSome = true) : ((create_crt env fs n).1 p).isSome = true := by
  unfold create_crt
  by_cases hc : exist_crt fs n
  · rw [if_pos hc]
    cases hg : env.sign ((fs.write (bakCrtPath env.ts n) (fs.readD (crtPath n))).readD (csrPath n)) <;>
      simp [hg, FS.copyfile, FS.write] <;> (try split_ifs) <;> simp [h]
  · rw [if_neg hc]
    cases hg : env.sign (fs.readD (csrPath n)) <;>
      simp [hg, FS.write] <;> (try split_ifs) <;> simp [h]

theorem process_cert_frame (env : Env) (fs : FS) (ch : Bool) (m : String) (d : List String) {p : String}
    (h1 : p ≠ sslConfPath) (h2 : p ≠ keyPath m) (h3 : p ≠ bakKeyPath env.ts m)
    (h4 : p ≠ csrPath m) (h5 : p ≠ crtPath m) (h6 : p ≠ bakCrtPath env.ts m) :
    (process_cert env fs ch m d).1 p = fs p := by
  have hck : ∀ g : FS, (create_key env g m).1 p = g p :=
    fun g => create_key_frame env g m h2 h3
  have hcs : ∀ g : FS, (create_csr env g m d).1 p = g p :=
    fun g => create_csr_frame env g m d h1 h4
  have hcc : ∀ g : FS, (create_crt env g m).1 p = g p :=
    fun g => create_crt_frame env g m h6 h5
  unfold process_cert
  cases hc : check_crt env.tk env.now env.maxAge fs m d with
  | error e => simp [hc]
  | ok b =>
    cases b with
    | true => simp [hc]
    | false =>
      simp only [hc]
      by_cases hk : exist_key fs m
      · simp only [hk, ite_true]
        cases h2c : (create_csr env fs m d).2 with
        | error e => simp [h2c, hcs]
        | ok u =>
          cases h3c : (create_crt env (create_csr env fs m d).1 m).2 with
          | error e => simp [h2c, h3c, hcc, hcs]
          | ok u => simp [h2c, h3c, hcc, hcs]
      · simp only [hk, ite_false]
        cases h1c : (create_key env fs m).2 with
        | error e => simp [h1c, hck]
        | ok u =>
          cases h2c : (create_csr env (create_key env fs m).1 m d).2 with
          | error e => simp [h1c, h2c, hcs, hck]
          | ok u =>
            cases h3c : (create_crt env (create_csr env (create_key env fs m).1 m d).1 m).2 with
            | error e => simp [h1c, h2c, h3c, hcc, hcs, hck]
            | ok u => simp [h1c, h2c, h3c, hcc, hcs, hck]

theorem process_cert_isSome (env : Env) (fs : FS) (ch : Bool) (m : String) (d : List String) {p : String}
    (h : (fs p).isSome = true) : ((process_cert env fs ch m d).1 p).isSome = true := by
  unfold process_cert
  cases hc : check_crt env.tk env.now env.maxAge fs m d with
  | error e => simpa [hc] using h
  | ok b =>
    cases b with
    | true => simpa [hc] using h
    | false =>
      simp only [hc]
      by_cases hk : exist_key fs m
      · simp only [hk, ite_true]
        cases h2c : (create_csr env fs m d).2 with
        | error e => simpa [h2c] using create_csr_isSome env fs m d h
        | ok u =>
          cases h3c : (create_crt env (create_csr env fs m d).1 m).2 with
          | error e =>
            simpa [h2c, h3c] using create_crt_isSome env _ m (create_csr_isSome env fs m d h)
          | ok u =>
            simpa [h2c, h3c] using create_crt_isSome env _ m (create_csr_isSome env fs m d h)
      · simp only [hk, ite_false]
        cases h1c : (create_key env fs m).2 with
        | error e => simpa [h1c] using create_key_isSome env fs m h
        | ok u =>
          cases h2c : (create_csr env (create_key env fs m).1 m d).2 with
          | error e =>
            simpa [h1c, h2c] using create_csr_isSome env _ m d (create_key_isSome env fs m h)
          | ok u =>
            cases h3c : (create_crt env (create_csr env (create_key env fs m).1 m d).1 m).2 with
            | error e =>
              simpa [h1c, h2c, h3c] using
                create_crt_isSome env _ m (create_csr_isSome env _ m d (create_key_isSome env fs m h))
            | ok u =>
              simpa [h1c, h2c, h3c] using
                create_crt_isSome env _ m (create_csr_isSome env _ m d (create_key_isSome env fs m h))

theorem process_cert_changed (env : Env) (fs : FS) (ch : Bool) (m : String) (d : List String) :
    (process_cert env fs ch m d).2 = (ch || cert_success env fs m d) := by
  unfold cert_success process_cert
  cases hc : check_crt env.tk env.now env.maxAge fs m d with
  | error e => simp [hc]
  | ok b =>
    cases b with
    | true => simp [hc]
    | false =>
      simp only [hc]
      by_cases hk : exist_key fs m
      · simp only [hk, ite_true]
        cases h2c : (create_csr env fs m d).2 with
        | error e => simp [h2c]
        | ok u =>
          cases h3c : (create_crt env (create_csr env fs m d).1 m).2 with
          | error e => simp [h2c, h3c]
          | ok u => simp [h2c, h3c]
      · simp only [hk, ite_false]
        cases h1c : (create_key env fs m).2 with
        | error e => simp [h1c]
        | ok u =>
          cases h2c : (create_csr env (create_key env fs m).1 m d).2 with
          | error e => simp [h1c, h2c]
          | ok u =>
            cases h3c : (create_crt env (create_csr env (create_key env fs m).1 m d).1 m).2 with
            | error e => simp [h1c, h2c, h3c]
            | ok u => simp [h1c, h2c, h3c]

theorem write_eq_write {fs fs' : FS} {q : String} (h : fs q = fs' q) (p c : String) :
    (fs.write p c) q = (fs'.write p c) q := by
  by_cases hq : q = p
  · simp [FS.write, hq]
  · simp [FS.write, hq, h]

theorem agree3_write_same {n : String} {fs fs' : FS} (h : agree3 n fs fs') (p c : String) :
    agree3 n (fs.write p c) (fs'.write p c) :=
  ⟨write_eq_write h.1 p c, write_eq_write h.2.1 p c, write_eq_write h.2.2 p c⟩

theorem agree3_write_other {n : String} {fs fs' : FS} (h : agree3 n fs fs') {p : String}
    (c c' : String) (hk : keyPath n ≠ p) (hc : csrPath n ≠ p) (hr : crtPath n ≠ p) :
    agree3 n (fs.write p c) (fs'.write p c') :=
  ⟨by simp [FS.write, hk, h.1], by simp [FS.write, hc, h.2.1], by simp [FS.write, hr, h.2.2]⟩

theorem check_crt_local (tk : Toolkit) (now maxAge : Int) {fs fs' : FS} (n : String)
    (d : List String) (h2 : fs (csrPath n) = fs' (csrPath n))
    (h3 : fs (crtPath n) = fs' (crtPath n)) :
    check_crt tk now maxAge fs n d = check_crt tk now maxAge fs' n d := by
  simp only [check_crt, FS.isfile, FS.readD, h2, h3]

theorem create_key_local (env : Env) {fs fs' : FS} (n : String) (h : agree3 n fs fs') :
    (create_key env fs n).2 = (create_key env fs' n).2 ∧
      agree3 n (create_key env fs n).1 (create_key env fs' n).1 := by
  have hex : exist_key fs' n = exist_key fs n := by
    unfold exist_key FS.isfile; rw [h.1]
  have hrd : fs.readD (keyPath n) = fs'.readD (keyPath n) :=
    congrArg (fun o => o.getD "") h.1
  unfold create_key FS.copyfile
  rw [hex, ← hrd]
  by_cases hk : exist_key fs n
  · rw [if_pos hk, if_pos hk]
    cases hg : env.gen n <;> simp only [hg]
    · exact ⟨by trivial, agree3_write_same h _ _⟩
    · exact ⟨by trivial, agree3_write_same (agree3_write_same h _ _) _ _⟩
  · rw [if_neg hk, if_neg hk]
    cases hg : env.gen n <;> simp only [hg]
    · exact ⟨by trivial, h⟩
    · exact ⟨by trivial, agree3_write_same h _ _⟩

theorem create_csr_local (env : Env) {fs fs' : FS} (n : String) (d : List String)
    (h : agree3 n fs fs') :
    (create_csr env fs n d).2 = (create_csr env fs' n d).2 ∧
      agree3 n (create_csr env fs n d).1 (create_csr env fs' n d).1 := by
  have hag : agree3 n
      (fs.write sslConfPath (fs.readD "/etc/ssl/openssl.cnf" ++ "\n[SAN]\n" ++
        ("subjectAltName=DNS:" ++ intercalateStr ",DNS:" d)))
      (fs'.write sslConfPath (fs'.readD "/etc/ssl/openssl.cnf" ++ "\n[SAN]\n" ++
        ("subjectAltName=DNS:" ++ intercalateStr ",DNS:" d))) :=
    agree3_write_other h _ _ (keyPath_ne_sslConf n) (csrPath_ne_sslConf n) (crtPath_ne_sslConf n)
  have hrd : (fs.write sslConfPath (fs.readD "/etc/ssl/openssl.cnf" ++ "\n[SAN]\n" ++
        ("subjectAltName=DNS:" ++ intercalateStr ",DNS:" d))).readD (keyPath n) =
      (fs'.write sslConfPath (fs'.readD "/etc/ssl/openssl.cnf" ++ "\n[SAN]\n" ++
        ("subjectAltName=DNS:" ++ intercalateStr ",DNS:" d))).readD (keyPath n) :=
    congrArg (fun o => o.getD "") hag.1
  unfold create_csr
  cases hg : env.mkCsr ((fs.write sslConfPath
      (fs.readD "/etc/ssl/openssl.cnf" ++ "\n[SAN]\n" ++
        ("subjectAltName=DNS:" ++ intercalateStr ",DNS:" d))).readD (keyPath n)) d with
  | error e =>
    have hg2 : env.mkCsr ((fs'.write sslConfPath
        (fs'.readD "/etc/ssl/openssl.cnf" ++ "\n[SAN]\n" ++
          ("subjectAltName=DNS:" ++ intercalateStr ",DNS:" d))).readD (keyPath n)) d =
        Except.error e := by rw [← hrd]; exact hg
    simp only [hg, hg2]
    exact ⟨by trivial, hag⟩
  | ok out =>
    have hg2 : env.mkCsr ((fs'.write sslConfPath
        (fs'.readD "/etc/ssl/openssl.cnf" ++ "\n[SAN]\n" ++
          ("subjectAltName=DNS:" ++ intercalateStr ",DNS:" d))).readD (keyPath n)) d =
        Except.ok out := by rw [← hrd]; exact hg
    simp only [hg, hg2]
    exact ⟨by trivial, agree3_write_same hag _ _⟩

theorem create_crt_local (env : Env) {fs fs' : FS} (n : String) (h : agree3 n fs fs') :
    (create_crt env fs n).2 = (create_crt env fs' n).2 ∧
      agree3 n (create_crt env fs n).1 (create_crt env fs' n).1 := by
  have hex : exist_crt fs' n = exist_crt fs n := by
    unfold exist_crt FS.isfile; rw [h.2.2]
  have hrd : fs.readD (crtPath n) = fs'.readD (crtPath n) :=
    congrArg (fun o => o.getD "") h.2.2
  unfold create_crt FS.copyfile
  rw [hex, ← hrd]
  by_cases hc : exist_crt fs n
  · rw [if_pos hc, if_pos hc]
    have hag : agree3 n (fs.write (bakCrtPath env.ts n) (fs.readD (crtPath n)))
        (fs'.write (bakCrtPath env.ts n) (fs.readD (crtPath n))) := agree3_write_same h _ _
    have hcs : (fs.write (bakCrtPath env.ts n) (fs.readD (crtPath n))).readD (csrPath n) =
        (fs'.write (bakCrtPath env.ts n) (fs.readD (crtPath n))).readD (csrPath n) :=
      congrArg (fun o => o.getD "") hag.2.1
    cases hg : env.sign ((fs.write (bakCrtPath env.ts n) (fs.readD (crtPath n))).readD (csrPath n)) with
    | error e =>
      have hg2 : env.sign ((fs'.write (bakCrtPath env.ts n)
          (fs.readD (crtPath n))).readD (csrPath n)) = Except.error e := by
        rw [← hcs]; exact hg
      simp only [hg, hg2]
      exact ⟨by trivial, hag⟩
    | ok s =>
      have hg2 : env.sign ((fs'.write (bakCrtPath env.ts n)
          (fs.readD (crtPath n))).readD (csrPath n)) = Except.ok s := by
        rw [← hcs]; exact hg
      simp only [hg, hg2]
      exact ⟨by trivial, agree3_write_same hag _ _⟩
  · rw [if_neg hc, if_neg hc]
    have hcs : fs.readD (csrPath n) = fs'.readD (csrPath n) :=
      congrArg (fun o => o.getD "") h.2.1
    cases hg : env.sign (fs.readD (csrPath n)) with
    | error e =>
      have hg2 : env.sign (fs'.readD (csrPath n)) = Except.error e := by rw [← hcs]; exact hg
      simp only [hg, hg2]
      exact ⟨by trivial, h⟩
    | ok s =>
      have hg2 : env.sign (fs'.readD (csrPath n)) = Except.ok s := by rw [← hcs]; exact hg
      simp only [hg, hg2]
      exact ⟨by trivial, agree3_write_same h _ _⟩

theorem process_cert_local (env : Env) {fs fs' : FS} (ch ch' : Bool) (n : String)
    (d : List String) (h : agree3 n fs fs') :
    cert_success env fs n d = cert_success env fs' n d ∧
      agree3 n (process_cert env fs ch n d).1 (process_cert env fs' ch' n d).1 := by
  have hchk := check_crt_local env.tk env.now env.maxAge n d h.2.1 h.2.2
  have hex : exist_key fs' n = exist_key fs n := by
    unfold exist_key FS.isfile; rw [h.1]
  unfold cert_success process_cert
  rw [hchk, hex]
  cases hc : check_crt env.tk env.now env.maxAge fs' n d with
  | error e =>
    simp only [hc]
    exact ⟨by trivial, h⟩
  | ok b =>
    cases b with
    | true =>
      simp only [hc]
      exact ⟨by trivial, h⟩
    | false =>
      simp only [hc]
      by_cases hk : exist_key fs n
      · rw [if_pos hk]
        try rw [if_pos hk]
        obtain ⟨ecsr, acsr⟩ := create_csr_local env n d h
        cases h2 : (create_csr env fs n d).2 with
        | error e =>
          have h2b : (create_csr env fs' n d).2 = Except.error e := by rw [← ecsr]; exact h2
          simp only [h2, h2b]
          exact ⟨by trivial, acsr⟩
        | ok u =>
          have h2b : (create_csr env fs' n d).2 = Except.ok u := by rw [← ecsr]; exact h2
          obtain ⟨ecrt, acrt⟩ := create_crt_local env n acsr
          cases h3 : (create_crt env (create_csr env fs n d).1 n).2 with
          | error e =>
            have h3b : (create_crt env (create_csr env fs' n d).1 n).2 = Except.error e := by
              rw [← ecrt]; exact h3
            simp only [h2, h2b, h3, h3b]
            exact ⟨by trivial, acrt⟩
          | ok u2 =>
            have h3b : (create_crt env (create_csr env fs' n d).1 n).2 = Except.ok u2 := by
              rw [← ecrt]; exact h3
            simp only [h2, h2b, h3, h3b]
            exact ⟨by trivial, acrt⟩
      · rw [if_neg hk]
        try rw [if_neg hk]
        obtain ⟨ekey, akey⟩ := create_key_local env n h
        cases h1 : (create_key env fs n).2 with
        | error e =>
          have h1b : (create_key env fs' n).2 = Except.error e := by rw [← ekey]; exact h1
          simp only [h1, h1b]
          exact ⟨by trivial, akey⟩
        | ok u0 =>
          have h1b : (create_key env fs' n).2 = Except.ok u0 := by rw [← ekey]; exact h1
          obtain ⟨ecsr, acsr⟩ := create_csr_local env n d akey
          cases h2 : (create_csr env (create_key env fs n).1 n d).2 with
          | error e =>
            have h2b : (create_csr env (create_key env fs' n).1 n d).2 = Except.error e := by
              rw [← ecsr]; exact h2
            simp only [h1, h1b, h2, h2b]
            exact ⟨by trivial, acsr⟩
          | ok u =>
            have h2b : (create_csr env (create_key env fs' n).1 n d).2 = Except.ok u := by
              rw [← ecsr]; exact h2
            obtain ⟨ecrt, acrt⟩ := create_crt_local env n acsr
            cases h3 : (create_crt env (create_csr env (create_key env fs n).1 n d).1 n).2 with
            | error e =>
              have h3b : (create_crt env (create_csr env (create_key env fs' n).1 n d).1 n).2 =
                  Except.error e := by rw [← ecrt]; exact h3
              simp only [h1, h1b, h2, h2b, h3, h3b]
              exact ⟨by trivial, acrt⟩
            | ok u2 =>
              have h3b : (create_crt env (create_csr env (create_key env fs' n).1 n d).1 n).2 =
                  Except.ok u2 := by rw [← ecrt]; exact h3
              simp only [h1, h1b, h2, h2b, h3, h3b]
              exact ⟨by trivial, acrt⟩

theorem pass_fold_isSome (env : Env) (certs : List (String × List String)) :
    ∀ (acc : FS × Bool) (p : String), ((acc.1) p).isSome = true →
      ((certs.foldl (fun acc c => process_cert env acc.1 acc.2 c.1 c.2) acc).1 p).isSome = true := by
  induction certs with
  | nil => intro acc p h; exact h
  | cons c rest ih =>
    intro acc p h
    exact ih _ p (process_cert_isSome env acc.1 acc.2 c.1 c.2 h)

/-- Claim C1 counterexample: certificate `site` has existing key, CSR and
certificate files (the claim's scope); the certificate's own SAN set is
`{a.com, b.com}` while the configured set is `{a.com, b.com, c.com}`, yet
`check_crt` reports the certificate valid, because it introspects the SAN
entries of the CSR (which here carries the configured set), never those of
the certificate. -/
theorem C1_counterexample :
    exist_key fsC1 "site" = true ∧
    fsC1.isfile (csrPath "site") = true ∧
    fsC1.isfile (crtPath "site") = true ∧
    tkC1.crtSanParts (fsC1.readD (crtPath "site")) = .ok ["DNS:a.com", "DNS:b.com"] ∧
    sortStr (dnsNames ["DNS:a.com", "DNS:b.com"]) = ["a.com", "b.com"] ∧
    (["a.com", "b.com"] : List String) ≠ ["a.com", "b.com", "c.com"] ∧
    check_crt tkC1 0 30 fsC1 "site" ["a.com", "b.com", "c.com"] = .ok true :=
  ⟨rfl, rfl, rfl, rfl, by decide, by decide, rfl⟩

/-- Claim C1 (amended): `check_crt` decides domain mismatch by introspecting
the SAN entries of the CSR file, not of the certificate: whenever the key,
CSR and certificate files are present and the CSR's sorted DNS SAN list
differs from the configured domain list, evaluation yields a non-valid
result. -/
theorem C1_csr_decides_mismatch (tk : Toolkit) (now maxAge : Int) (fs : FS)
    (n : String) (d parts : List String)
    (hcrt : fs.isfile (crtPath n) = true) (hcsr : fs.isfile (csrPath n) = true)
    (hparts : tk.csrSanParts (fs.readD (csrPath n)) = .ok parts)
    (hne : sortStr (dnsNames parts) ≠ d) :
    check_crt tk now maxAge fs n d = .ok false := by
  simp [check_crt, hcrt, hcsr, hparts, hne]

/-- Witness for C1's amended theorem at a concrete state. -/
theorem C1_csr_decides_mismatch_witness :
    fsC1.isfile (crtPath "site") = true ∧ fsC1.isfile (csrPath "site") = true ∧
    tkC1.csrSanParts (fsC1.readD (csrPath "site")) =
      .ok ["DNS:a.com", "DNS:b.com", "DNS:c.com"] ∧
    sortStr (dnsNames ["DNS:a.com", "DNS:b.com", "DNS:c.com"]) ≠ ["a.com"] ∧
    check_crt tkC1 0 30 fsC1 "site" ["a.com"] = .ok false :=
  ⟨rfl, rfl, rfl, by decide,
    C1_csr_decides_mismatch tkC1 0 30 fsC1 "site" ["a.com"] _ rfl rfl rfl (by decide)⟩

/-- Claim C2 counterexample: certificate and CSR for `web` are present,
matching and fresh, but no private key file exists anywhere; `check_crt`
still returns `true` (Valid), so the pipeline skips the certificate even
though its key is missing. -/
theorem C2_counterexample :
    exist_key fsC2 "web" = false ∧
    fsC2.isfile (crtPath "web") = true ∧
    check_crt tkC2 0 30 fsC2 "web" ["a.com"] = .ok true :=
  ⟨rfl, rfl, rfl⟩

/-- Claim C2 (amended): the evaluator returns a non-valid (Missing) result
whenever the certificate file or the CSR file is absent, and its result is
entirely independent of the private key file: deleting the key changes
nothing.  (The source checks `crt_file` and `csr_file`; it never consults
the key.) -/
theorem C2_missing_material (tk : Toolkit) (now maxAge : Int) (fs : FS)
    (n : String) (d : List String) :
    ((fs.isfile (crtPath n) = false ∨ fs.isfile (csrPath n) = false) →
      check_crt tk now maxAge fs n d = .ok false) ∧
    check_crt tk now maxAge (fs.eraseF (keyPath n)) n d =
      check_crt tk now maxAge fs n d := by
  constructor
  · intro h
    rcases h with h | h <;> simp [check_crt, h]
  · refine check_crt_local tk now maxAge n d ?_ ?_
    · simp [FS.eraseF, (keyPath_ne_csrPath n n).symm]
    · simp [FS.eraseF, (keyPath_ne_crtPath n n).symm]

/-- Witness for C2's amended theorem: key-independence at the concrete state
of the counterexample, and absence of material at the empty filesystem. -/
theorem C2_missing_material_witness :
    check_crt tkC2 0 30 (fsC2.eraseF (keyPath "web")) "web" ["a.com"] =
      check_crt tkC2 0 30 fsC2 "web" ["a.com"] ∧
    check_crt tkC2 0 30 (fun _ => none) "web" ["a.com"] = .ok false :=
  ⟨(C2_missing_material tkC2 0 30 fsC2 "web" ["a.com"]).2,
   (C2_missing_material tkC2 0 30 (fun _ => none) "web" ["a.com"]).1 (Or.inl rfl)⟩

/-- Claim C3: a private key file is never deleted by a renewal pass (no
operation of the engine removes files, only writes them), and when
`create_key` is about to overwrite an existing key, the prior key is first
copied to the timestamp-prefixed backup record, which still holds the old
key after the new one is installed. -/
theorem C3_key_preservation (env : Env) (certs : List (String × List String))
    (fs : FS) (p n k : String) :
    ((fs p).isSome = true → (((renew_pass env certs fs).1) p).isSome = true) ∧
    (fs (keyPath n) = some k →
      (create_key env fs n).1 (bakKeyPath env.ts n) = some k ∧
      (∀ out, env.gen n = .ok out → (create_key env fs n).1 (keyPath n) = some out)) := by
  constructor
  · intro h
    exact pass_fold_isSome env certs (fs, false) p h
  · intro hk
    have hex : exist_key fs n = true := by
      unfold exist_key FS.isfile; rw [hk]; rfl
    have hbk : bakKeyPath env.ts n ≠ keyPath n := (keyPath_ne_bakKeyPath n env.ts n).symm
    have hrd : fs.readD (keyPath n) = k := by
      unfold FS.readD; rw [hk]; rfl
    unfold create_key FS.copyfile
    rw [if_pos hex]
    cases hg : env.gen n with
    | error e =>
      simp only [hg]
      refine ⟨?_, ?_⟩
      · show (fs.write (bakKeyPath env.ts n) (fs.readD (keyPath n))) (bakKeyPath env.ts n) =
          some k
        rw [write_self, hrd]
      · intro out ho
        exact Except.noConfusion ho
    | ok out0 =>
      simp only [hg]
      refine ⟨?_, ?_⟩
      · show ((fs.write (bakKeyPath env.ts n) (fs.readD (keyPath n))).write (keyPath n) out0)
            (bakKeyPath env.ts n) = some k
        rw [write_other _ _ hbk, write_self, hrd]
      · intro out ho
        have hoo : out0 = out := Except.ok.inj ho
        subst hoo
        show ((fs.write (bakKeyPath env.ts n) (fs.readD (keyPath n))).write (keyPath n) out0)
            (keyPath n) = some out0
        rw [write_self]

/-- Witness for C3 at a concrete state with an existing key. -/
theorem C3_key_preservation_witness :
    ((fsC3 (keyPath "site")).isSome = true ∧
      (((renew_pass envC3 [("site", ["a.com"])] fsC3).1) (keyPath "site")).isSome = true) ∧
    (fsC3 (keyPath "site") = some "OLDKEY3" ∧
      (create_key envC3 fsC3 "site").1 (bakKeyPath "20240101_120000" "site") =
        some "OLDKEY3") :=
  ⟨⟨rfl, (C3_key_preservation envC3 [("site", ["a.com"])] fsC3 (keyPath "site") "site"
      "OLDKEY3").1 rfl⟩,
   ⟨rfl, ((C3_key_preservation envC3 [("site", ["a.com"])] fsC3 (keyPath "site") "site"
      "OLDKEY3").2 rfl).1⟩⟩

/-- Claim C4 counterexample: with a prior certificate on disk and a failing
CA exchange, `create_crt` raises the signing error and yet the archive copy
of the prior certificate has already been made — the archival happens before
the signing attempt, not after it. -/
theorem C4_counterexample :
    (create_crt envC4 fsC4 "site").2 = .error "ACME exchange failed" ∧
    (create_crt envC4 fsC4 "site").1 (bakCrtPath "20240101_120000" "site") =
      some "OLDCRT4" ∧
    (create_crt envC4 fsC4 "site").1 (crtPath "site") = some "OLDCRT4" :=
  ⟨rfl, rfl, rfl⟩

/-- Claim C4 (amended): `create_crt` archives an existing certificate
*before* attempting the CA exchange: the backup record holds the prior
certificate regardless of the signing outcome — in particular a failed
signing has still performed the archive copy — while a failed signing leaves
the currently-serving certificate file itself unchanged. -/
theorem C4_archive_before_signing (env : Env) (fs : FS) (n c : String) :
    (fs (crtPath n) = some c →
      (create_crt env fs n).1 (bakCrtPath env.ts n) = some c) ∧
    (∀ e, (create_crt env fs n).2 = .error e →
      (create_crt env fs n).1 (crtPath n) = fs (crtPath n)) := by
  have hbkne : bakCrtPath env.ts n ≠ crtPath n := (crtPath_ne_bakCrtPath n env.ts n).symm
  have hcrne : crtPath n ≠ bakCrtPath env.ts n := crtPath_ne_bakCrtPath n env.ts n
  constructor
  · intro hc
    have hex : exist_crt fs n = true := by
      unfold exist_crt FS.isfile; rw [hc]; rfl
    have hrd : fs.readD (crtPath n) = c := by
      unfold FS.readD; rw [hc]; rfl
    unfold create_crt FS.copyfile
    rw [if_pos hex]
    cases hg : env.sign ((fs.write (bakCrtPath env.ts n) (fs.readD (crtPath n))).readD
        (csrPath n)) with
    | error e =>
      simp only [hg]
      show (fs.write (bakCrtPath env.ts n) (fs.readD (crtPath n))) (bakCrtPath env.ts n) =
        some c
      rw [write_self, hrd]
    | ok s =>
      simp only [hg]
      show ((fs.write (bakCrtPath env.ts n) (fs.readD (crtPath n))).write (crtPath n)
          (if env.chained_crt = "true" then s ++ env.intermediate else s))
          (bakCrtPath env.ts n) = some c
      rw [write_other _ _ hbkne, write_self, hrd]
  · intro e he
    unfold create_crt FS.copyfile at he ⊢
    by_cases hex : exist_crt fs n
    · rw [if_pos hex] at he ⊢
      cases hg : env.sign ((fs.write (bakCrtPath env.ts n) (fs.readD (crtPath n))).readD
          (csrPath n)) with
      | error e2 =>
        simp only [hg]
        show (fs.write (bakCrtPath env.ts n) (fs.readD (crtPath n))) (crtPath n) =
          fs (crtPath n)
        rw [write_other _ _ hcrne]
      | ok s => simp [hg] at he
    · rw [if_neg hex] at he ⊢
      cases hg : env.sign (fs.readD (csrPath n)) with
      | error e2 => simp only [hg]
      | ok s => simp [hg] at he

/-- Witness for C4's amended theorem at the failing-signing state. -/
theorem C4_archive_before_signing_witness :
    fsC4 (crtPath "site") = some "OLDCRT4" ∧
    (create_crt envC4 fsC4 "site").1 (bakCrtPath envC4.ts "site") = some "OLDCRT4" ∧
    (create_crt envC4 fsC4 "site").2 = .error "ACME exchange failed" ∧
    (create_crt envC4 fsC4 "site").1 (crtPath "site") = fsC4 (crtPath "site") :=
  ⟨rfl, (C4_archive_before_signing envC4 fsC4 "site" "OLDCRT4").1 rfl, rfl,
   (C4_archive_before_signing envC4 fsC4 "site" "OLDCRT4").2 "ACME exchange failed" rfl⟩

/-- Claim C5 counterexample: certificate `site` has a key on disk and an
expired certificate; the pipeline body reissues the certificate (`changed`
becomes true) without generating any fresh key — the key file is untouched,
the new CSR is derived from the old key, and the key-generation oracle of
this environment would have failed had it been invoked. -/
theorem C5_counterexample :
    (process_cert envC5 fsC5 false "site" ["a.com"]).2 = true ∧
    (process_cert envC5 fsC5 false "site" ["a.com"]).1 (keyPath "site") =
      some "OLDKEY5" ∧
    (process_cert envC5 fsC5 false "site" ["a.com"]).1 (csrPath "site") =
      some "CSRfrom:OLDKEY5" ∧
    envC5.gen "site" = .error "never invoked" :=
  ⟨rfl, rfl, rfl, rfl⟩

/-- Claim C5 (amended): a fresh private key is generated only when no key
file exists.  When a key is present the pipeline body leaves the key file
untouched and reuses it across the reissue; when absent and the pipeline
runs, the freshly generated key is installed. -/
theorem C5_key_reuse (env : Env) (fs : FS) (ch : Bool) (n : String) (d : List String) :
    (exist_key fs n = true →
      (process_cert env fs ch n d).1 (keyPath n) = fs (keyPath n)) ∧
    (∀ k, exist_key fs n = false →
      check_crt env.tk env.now env.maxAge fs n d = .ok false →
      env.gen n = .ok k →
      (process_cert env fs ch n d).1 (keyPath n) = some k) := by
  have hfcsr : ∀ g : FS, (create_csr env g n d).1 (keyPath n) = g (keyPath n) :=
    fun g => create_csr_frame env g n d (keyPath_ne_sslConf n) (keyPath_ne_csrPath n n)
  have hfcrt : ∀ g : FS, (create_crt env g n).1 (keyPath n) = g (keyPath n) :=
    fun g => create_crt_frame env g n (keyPath_ne_bakCrtPath n env.ts n)
      (keyPath_ne_crtPath n n)
  constructor
  · intro hex
    unfold process_cert
    cases hc : check_crt env.tk env.now env.maxAge fs n d with
    | error e => simp [hc]
    | ok b =>
      cases b with
      | true => simp [hc]
      | false =>
        simp only [hc]
        rw [if_pos hex]
        cases h2c : (create_csr env fs n d).2 with
        | error e => simp [h2c, hfcsr]
        | ok u =>
          cases h3c : (create_crt env (create_csr env fs n d).1 n).2 with
          | error e => simp [h2c, h3c, hfcrt, hfcsr]
          | ok u => simp [h2c, h3c, hfcrt, hfcsr]
  · intro k hex hchk hgen
    have hnex : ¬ exist_key fs n = true := by simp [hex]
    have hck1 : (create_key env fs n).1 (keyPath n) = some k := by
      unfold create_key
      rw [if_neg hnex]
      simp only [hgen]
      exact write_self fs (keyPath n) k
    have hck2 : (create_key env fs n).2 = Except.ok () := by
      unfold create_key
      rw [if_neg hnex]
      simp only [hgen]
    unfold process_cert
    simp only [hchk]
    rw [if_neg hnex]
    cases h2c : (create_csr env (create_key env fs n).1 n d).2 with
    | error e => simp [hck2, h2c, hfcsr, hck1]
    | ok u =>
      cases h3c : (create_crt env (create_csr env (create_key env fs n).1 n d).1 n).2 with
      | error e => simp [hck2, h2c, h3c, hfcrt, hfcsr, hck1]
      | ok u => simp [hck2, h2c, h3c, hfcrt, hfcsr, hck1]

/-- Witness for C5's amended theorem: key reuse at the concrete expired
state, and fresh-key installation at the empty state of the isolation
environment. -/
theorem C5_key_reuse_witness :
    (exist_key fsC5 "site" = true ∧
      (process_cert envC5 fsC5 false "site" ["a.com"]).1 (keyPath "site") =
        fsC5 (keyPath "site")) ∧
    (exist_key fsC6 "a" = false ∧
      check_crt envC6.tk envC6.now envC6.maxAge fsC6 "a" ["a.com"] = .ok false ∧
      envC6.gen "a" = .ok "KEYfor:a" ∧
      (process_cert envC6 fsC6 false "a" ["a.com"]).1 (keyPath "a") = some "KEYfor:a") :=
  ⟨⟨rfl, (C5_key_reuse envC5 fsC5 false "site" ["a.com"]).1 rfl⟩,
   ⟨rfl, rfl, rfl,
    (C5_key_reuse envC6 fsC6 false "a" ["a.com"]).2 "KEYfor:a" rfl rfl rfl⟩⟩

/-- Claim C6: per-certificate failure isolation.  Whatever certificate `b`'s
pipeline does (including raising a toolkit or signing error, which the
per-certificate `except` boundary catches so that the pass always runs to
completion), certificate `a`'s artifacts and its contribution to the
`changed` flag are exactly those of running `a`'s pipeline alone, in either
processing order. -/
theorem C6_isolation (env : Env) (fs : FS) (a b : String) (da db : List String)
    (hab : a ≠ b) :
    (certFiles a (renew_pass env [(a, da), (b, db)] fs).1 =
        certFiles a (process_cert env fs false a da).1 ∧
      ((process_cert env fs false a da).2 = true →
        (renew_pass env [(a, da), (b, db)] fs).2 = true)) ∧
    (certFiles a (renew_pass env [(b, db), (a, da)] fs).1 =
        certFiles a (process_cert env fs false a da).1 ∧
      ((process_cert env fs false a da).2 = true →
        (renew_pass env [(b, db), (a, da)] fs).2 = true)) := by
  have hf1 : ∀ (g : FS) (ch : Bool),
      (process_cert env g ch b db).1 (keyPath a) = g (keyPath a) :=
    fun g ch => process_cert_frame env g ch b db (keyPath_ne_sslConf a)
      (fun h => hab (keyPath_inj h)) (keyPath_ne_bakKeyPath a env.ts b)
      (keyPath_ne_csrPath a b) (keyPath_ne_crtPath a b) (keyPath_ne_bakCrtPath a env.ts b)
  have hf2 : ∀ (g : FS) (ch : Bool),
      (process_cert env g ch b db).1 (csrPath a) = g (csrPath a) :=
    fun g ch => process_cert_frame env g ch b db (csrPath_ne_sslConf a)
      ((keyPath_ne_csrPath b a).symm) (csrPath_ne_bakKeyPath a env.ts b)
      (fun h => hab (csrPath_inj h)) (csrPath_ne_crtPath a b)
      (csrPath_ne_bakCrtPath a env.ts b)
  have hf3 : ∀ (g : FS) (ch : Bool),
      (process_cert env g ch b db).1 (crtPath a) = g (crtPath a) :=
    fun g ch => process_cert_frame env g ch b db (crtPath_ne_sslConf a)
      ((keyPath_ne_crtPath b a).symm) (crtPath_ne_bakKeyPath a env.ts b)
      ((csrPath_ne_crtPath b a).symm) (fun h => hab (crtPath_inj h))
      (crtPath_ne_bakCrtPath a env.ts b)
  refine ⟨⟨?_, ?_⟩, ⟨?_, ?_⟩⟩
  · show certFiles a (process_cert env (process_cert env fs false a da).1
        (process_cert env fs false a da).2 b db).1 =
      certFiles a (process_cert env fs false a da).1
    unfold certFiles
    rw [hf1, hf2, hf3]
  · intro hA
    show (process_cert env (process_cert env fs false a da).1
        (process_cert env fs false a da).2 b db).2 = true
    rw [process_cert_changed, hA]
    simp
  · have hag : agree3 a (process_cert env fs false b db).1 fs :=
      ⟨hf1 fs false, hf2 fs false, hf3 fs false⟩
    obtain ⟨hs, hagg⟩ := process_cert_local env
      (process_cert env fs false b db).2 false a da hag
    show certFiles a (process_cert env (process_cert env fs false b db).1
        (process_cert env fs false b db).2 a da).1 =
      certFiles a (process_cert env fs false a da).1
    unfold certFiles
    rw [hagg.1, hagg.2.1, hagg.2.2]
  · intro hA
    have hag : agree3 a (process_cert env fs false b db).1 fs :=
      ⟨hf1 fs false, hf2 fs false, hf3 fs false⟩
    obtain ⟨hs, hagg⟩ := process_cert_local env
      (process_cert env fs false b db).2 false a da hag
    show (process_cert env (process_cert env fs false b db).1
        (process_cert env fs false b db).2 a da).2 = true
    rw [process_cert_changed, hs]
    have hA2 : cert_success env fs a da = true := hA
    rw [hA2]
    simp

/-- Witness for C6 at a concrete two-certificate pass in which `a` succeeds
end to end while `b`'s CA exchange fails. -/
theorem C6_isolation_witness :
    (("a" : String) ≠ "b") ∧
    (process_cert envC6 fsC6 false "a" ["a.com"]).2 = true ∧
    cert_success envC6 fsC6 "b" ["b.com"] = false ∧
    (renew_pass envC6 [("b", ["b.com"]), ("a", ["a.com"])] fsC6).2 = true ∧
    certFiles "a" (renew_pass envC6 [("b", ["b.com"]), ("a", ["a.com"])] fsC6).1 =
      certFiles "a" (process_cert envC6 fsC6 false "a" ["a.com"]).1 :=
  ⟨by decide, rfl, rfl,
   (C6_isolation envC6 fsC6 "a" "b" ["a.com"] ["b.com"] (by decide)).2.2 rfl,
   (C6_isolation envC6 fsC6 "a" "b" ["a.com"] ["b.com"] (by decide)).2.1⟩

/-- Claim C7 counterexample: in a pass where `a` is reissued and `b` is
evaluated valid and skipped (its certificate file is untouched and its own
pipeline contributes no change), the notification phase still signals `b`'s
specific notify target: change is tracked only as a pass-wide boolean, and
once it is set the targets of every file-configured certificate fire. -/
theorem C7_counterexample :
    (process_cert envC7 fsC7 false "b" ["b.com"]).2 = false ∧
    (run_pass envC7 [("a", ["a.com"]), ("b", ["b.com"])] [("b", "bproxy")] none fsC7).1
      (crtPath "b") = some "BCRT" ∧
    (run_pass envC7 [("a", ["a.com"]), ("b", ["b.com"])] [("b", "bproxy")] none fsC7).2.1 =
      true ∧
    (run_pass envC7 [("a", ["a.com"]), ("b", ["b.com"])] [("b", "bproxy")] none fsC7).2.2 =
      ["bproxy"] :=
  ⟨rfl, rfl, rfl, rfl⟩

/-- Claim C7 (amended): if no certificate was reissued in a pass no
notification is sent at all; if any certificate was reissued, the global
default targets are notified once and then the specific targets of every
certificate present in the file-derived notify mapping are notified, whether
or not that particular certificate changed. -/
theorem C7_notify_phase (env : Env) (certs : List (String × List String))
    (notifies : List (String × String)) (cn : Option String) (fs : FS) :
    ((run_pass env certs notifies cn fs).2.1 = false →
      (run_pass env certs notifies cn fs).2.2 = []) ∧
    ((run_pass env certs notifies cn fs).2.1 = true →
      (run_pass env certs notifies cn fs).2.2 =
        notify_container cn ++
          (notifies.map (fun p => notify_container (some p.2))).flatten) := by
  constructor
  · intro h
    have h2 : (renew_pass env certs fs).2 = false := h
    simp [run_pass, notify_phase, h2]
  · intro h
    have h2 : (renew_pass env certs fs).2 = true := h
    simp [run_pass, notify_phase, h2]

/-- Witness for C7's amended theorem at the concrete two-certificate pass. -/
theorem C7_notify_phase_witness :
    (run_pass envC7 [("a", ["a.com"]), ("b", ["b.com"])] [("b", "bproxy")] none fsC7).2.1 =
      true ∧
    (run_pass envC7 [("a", ["a.com"]), ("b", ["b.com"])] [("b", "bproxy")] none fsC7).2.2 =
      notify_container none ++
        ([("b", "bproxy")].map (fun p => notify_container (some p.2))).flatten :=
  ⟨rfl, (C7_notify_phase envC7 [("a", ["a.com"]), ("b", ["b.com"])]
    [("b", "bproxy")] none fsC7).2 rfl⟩

/-- Claim C8: with key material present and the CSR SAN list matching the
configured domains, the evaluator returns Valid exactly when the whole-day
age since issuance (the floor of the elapsed seconds over 86400, as Python
`timedelta.days`) is strictly below the configured maximum age. -/
theorem C8_age_boundary (tk : Toolkit) (now maxAge : Int) (fs : FS) (n : String)
    (d parts : List String) (start : Int)
    (hcrt : fs.isfile (crtPath n) = true) (hcsr : fs.isfile (csrPath n) = true)
    (hparts : tk.csrSanParts (fs.readD (csrPath n)) = .ok parts)
    (hmatch : sortStr (dnsNames parts) = d)
    (hstart : tk.crtStart (fs.readD (crtPath n)) = .ok start) :
    check_crt tk now maxAge fs n d = .ok true ↔ (now - start).fdiv 86400 < maxAge := by
  simp [check_crt, hcrt, hcsr, hparts, hmatch, hstart]

/-- Witness for C8 at the claim's two boundary instances: issuance at
instant 0, age 29 days 23 hours (2588400 s) evaluates Valid, age 30 days
1 hour (2595600 s) does not. -/
theorem C8_age_boundary_witness :
    check_crt tkC8 2588400 30 fsC8 "site" ["a.com"] = .ok true ∧
    check_crt tkC8 2595600 30 fsC8 "site" ["a.com"] ≠ .ok true :=
  ⟨(C8_age_boundary tkC8 2588400 30 fsC8 "site" ["a.com"] ["DNS:a.com"] 0
      rfl rfl rfl (by decide) rfl).mpr (by decide),
   fun h => absurd ((C8_age_boundary tkC8 2595600 30 fsC8 "site" ["a.com"] ["DNS:a.com"] 0
      rfl rfl rfl (by decide) rfl).mp h) (by decide)⟩

theorem lookupA_upsert_self {α : Type} (m : List (String × α)) (k : String) (v : α) :
    lookupA (upsert m k v) k = some v := by
  induction m with
  | nil => simp [upsert, lookupA]
  | cons kv rest ih =>
    obtain ⟨k2, v2⟩ := kv
    by_cases h : k2 = k
    · simp [upsert, lookupA, h]
    · simp [upsert, lookupA, h, ih]

theorem lookupA_upsert_other {α : Type} (m : List (String × α)) {k q : String} (v : α)
    (h : k ≠ q) : lookupA (upsert m k v) q = lookupA m q := by
  induction m with
  | nil => simp [upsert, lookupA, h]
  | cons kv rest ih =>
    obtain ⟨k2, v2⟩ := kv
    by_cases h2 : k2 = k
    · subst h2
      simp [upsert, lookupA, h]
    · simp [upsert, lookupA, h2, ih]

theorem apply_sections_notmem :
    ∀ (secs : List IniSection) (q : String), (∀ s ∈ secs, s.sname ≠ q) →
      ∀ (certs : List (String × List String)) (notifies : List (String × String)),
        lookupA (apply_sections secs certs notifies).1 q = lookupA certs q ∧
        lookupA (apply_sections secs certs notifies).2 q = lookupA notifies q := by
  intro secs
  induction secs with
  | nil => intro q _ certs notifies; exact ⟨rfl, rfl⟩
  | cons s rest ih =>
    intro q hne certs notifies
    obtain ⟨sn, sd, st⟩ := s
    have hsn : sn ≠ q := hne ⟨sn, sd, st⟩ (List.mem_cons_self _ _)
    cases sd with
    | none => exact ⟨rfl, rfl⟩
    | some dd =>
      cases st with
      | none => exact ⟨lookupA_upsert_other certs (normalizeDomains dd) hsn, rfl⟩
      | some tt =>
        have h2 := ih q (fun s2 hs2 => hne s2 (List.mem_cons_of_mem _ hs2))
          (upsert certs sn (normalizeDomains dd)) (upsert notifies sn tt)
        exact ⟨h2.1.trans (lookupA_upsert_other certs (normalizeDomains dd) hsn),
          h2.2.trans (lookupA_upsert_other notifies tt hsn)⟩

theorem apply_sections_lookup :
    ∀ (secs : List IniSection) (name d t : String),
      (∀ s ∈ secs, s.sdomains.isSome ∧ s.snotify.isSome) →
      (secs.map (fun s => s.sname)).Nodup →
      (⟨name, some d, some t⟩ : IniSection) ∈ secs →
      ∀ (certs : List (String × List String)) (notifies : List (String × String)),
        lookupA (apply_sections secs certs notifies).1 name =
          some (normalizeDomains d) ∧
        lookupA (apply_sections secs certs notifies).2 name = some t := by
  intro secs
  induction secs with
  | nil => intro name d t _ _ hmem; simp at hmem
  | cons s rest ih =>
    intro name d t hwf hnd hmem certs notifies
    rcases List.mem_cons.mp hmem with heq | hmem2
    · cases heq.symm
      have hnotin : ∀ s2 ∈ rest, s2.sname ≠ name := by
        intro s2 hs2 hna
        have := (List.nodup_cons.mp hnd).1
        exact this (by
          simpa [hna] using List.mem_map_of_mem (fun s3 => s3.sname) hs2)
      have h2 := apply_sections_notmem rest name hnotin
        (upsert certs name (normalizeDomains d)) (upsert notifies name t)
      exact ⟨h2.1.trans (lookupA_upsert_self certs name (normalizeDomains d)),
        h2.2.trans (lookupA_upsert_self notifies name t)⟩
    · obtain ⟨sn, sd, st⟩ := s
      have hwfh := hwf ⟨sn, sd, st⟩ (List.mem_cons_self _ _)
      cases sd with
      | none => simp at hwfh
      | some dd =>
        cases st with
        | none => simp at hwfh
        | some tt =>
          exact ih name d t (fun s2 hs2 => hwf s2 (List.mem_cons_of_mem _ hs2))
            (List.nodup_cons.mp hnd).2 hmem2
            (upsert certs sn (normalizeDomains dd)) (upsert notifies sn tt)

/-- Claim C9: configuration precedence.  For any environment-derived
definitions and any well-formed INI file whose section names are distinct,
a certificate name carried by a file section ends up in the aggregated
mapping with the file-derived domain set (split on commas, deduplicated,
empty entries filtered, sorted) and the file-derived notify targets,
overriding any environment-derived entry of the same name. -/
theorem C9_file_overrides (envvars : List (String × String)) (secs : List IniSection)
    (name d t : String)
    (hwf : ∀ s ∈ secs, s.sdomains.isSome ∧ s.snotify.isSome)
    (hnd : (secs.map (fun s => s.sname)).Nodup)
    (hmem : (⟨name, some d, some t⟩ : IniSection) ∈ secs) :
    lookupA (aggregate envvars (some secs)).1 name = some (normalizeDomains d) ∧
    lookupA (aggregate envvars (some secs)).2 name = some t :=
  apply_sections_lookup secs name d t hwf hnd hmem (env_certs envvars) []

/-- Witness for C9: the name `wild` is defined both by the environment
variable `CERT_wild` and by a file section; the aggregate carries the
file-derived domain set (deduplicated, empty-filtered, sorted) and notify
targets, not the environment-derived set. -/
theorem C9_file_overrides_witness :
    (∀ s ∈ secsC9, s.sdomains.isSome ∧ s.snotify.isSome) ∧
    (secsC9.map (fun s => s.sname)).Nodup ∧
    (⟨"wild", some "c.com,b.com,,c.com", some "proxy1,proxy2"⟩ : IniSection) ∈ secsC9 ∧
    lookupA (env_certs envvarsC9) "wild" = some ["a.com", "b.com"] ∧
    lookupA (aggregate envvarsC9 (some secsC9)).1 "wild" =
      some (normalizeDomains "c.com,b.com,,c.com") ∧
    normalizeDomains "c.com,b.com,,c.com" = ["b.com", "c.com"] ∧
    lookupA (aggregate envvarsC9 (some secsC9)).2 "wild" = some "proxy1,proxy2" :=
  ⟨by decide, by decide, by decide, by decide,
   (C9_file_overrides envvarsC9 secsC9 "wild" "c.com,b.com,,c.com" "proxy1,proxy2"
      (by decide) (by decide) (by decide)).1,
   by decide,
   (C9_file_overrides envvarsC9 secsC9 "wild" "c.com,b.com,,c.com" "proxy1,proxy2"
      (by decide) (by decide) (by decide)).2⟩

/-- Claim C10: in a successful `create_crt` run, the fetched intermediate is
appended to the signed certificate exactly when the `CHAINED_CRT` value
captured once at process start equals the lowercase string "true"; any other
value (including "True") installs the unchained leaf certificate. -/
theorem C10_chaining (env : Env) (fs : FS) (n s : String)
    (hs : env.sign (fs.readD (csrPath n)) = .ok s) :
    (create_crt env fs n).2 = .ok () ∧
    (create_crt env fs n).1 (crtPath n) =
      some (if env.chained_crt = "true" then s ++ env.intermediate else s) ∧
    (env.chained_crt ≠ "true" → (create_crt env fs n).1 (crtPath n) = some s) := by
  unfold create_crt FS.copyfile
  by_cases hex : exist_crt fs n
  · rw [if_pos hex]
    have hread : (fs.write (bakCrtPath env.ts n) (fs.readD (crtPath n))).readD (csrPath n) =
        fs.readD (csrPath n) := by
      unfold FS.readD
      rw [write_other fs _ (csrPath_ne_bakCrtPath n env.ts n)]
    have hs2 : env.sign ((fs.write (bakCrtPath env.ts n)
        (fs.readD (crtPath n))).readD (csrPath n)) = .ok s := by
      rw [hread]; exact hs
    simp only [hs2]
    refine ⟨by trivial, write_self _ _ _, ?_⟩
    intro hne
    rw [if_neg hne] at *
    exact write_self _ _ _
  · rw [if_neg hex]
    simp only [hs]
    refine ⟨by trivial, write_self _ _ _, ?_⟩
    intro hne
    rw [if_neg hne] at *
    exact write_self _ _ _

/-- Witness for C10 with `CHAINED_CRT` captured as "True": the comparison is
against the exact lowercase "true", so the installed certificate is the
unchained leaf. -/
theorem C10_chaining_witness :
    envC10.sign (fsC10.readD (csrPath "site")) = .ok "SIGNED10" ∧
    envC10.chained_crt = "True" ∧
    ("True" : String) ≠ "true" ∧
    (create_crt envC10 fsC10 "site").2 = .ok () ∧
    (create_crt envC10 fsC10 "site").1 (crtPath "site") = some "SIGNED10" :=
  ⟨rfl, rfl, by decide, (C10_chaining envC10 fsC10 "site" "SIGNED10" rfl).1,
   (C10_chaining envC10 fsC10 "site" "SIGNED10" rfl).2.2 (by decide)⟩
